import Mathlib

/-!
# Verification of the Aadhaar teen-age validator pipeline

Shallow embedding of `src/Backend/app.py` (class `AadhaarVerifier`).
Strings are modelled as `List Char`; the regular expressions occurring in
the source are modelled by hand-written backtracking matchers with the
exact leftmost/greedy semantics of Python's `re` module (over the ASCII
alphabet).  External collaborators (OpenCV transforms, Tesseract OCR,
`fuzzywuzzy` scorers, `dateutil` parsing) are parameters, as the spec
designates them external interfaces.  Python exceptions are modelled with
`Except PyErr`.
-/

set_option linter.unusedVariables false

namespace Aadhaar

/-- Python strings, modelled as character lists. -/
abbrev Str := List Char

/-- Coerce a Lean string literal to our `Str` model. -/
def str (s : String) : Str := s.data

/-- Python runtime exceptions that the modelled code can raise. -/
inductive PyErr where
  /-- `IndexError: list index out of range` (from `split()[0]`). -/
  | indexError : PyErr
  /-- `IndexError: no such group` (from `match.group(1)` on a groupless pattern). -/
  | noSuchGroup : PyErr
deriving DecidableEq, Repr

/-- A parsed calendar date (the result of `dateutil.parser.parse`). -/
structure PyDate where
  year : Nat
  month : Nat
  day : Nat
deriving DecidableEq, Repr

/-- Python tuple comparison `(a, b) < (c, d)`. -/
def pairLt (a b : Nat × Nat) : Bool :=
  a.1 < b.1 || (a.1 = b.1 && a.2 < b.2)

/-! ## Character classes (Python `re` over ASCII) -/

/-- Python `\s` on ASCII: space, tab, newline, carriage return, vertical tab, form feed. -/
def isPySpace (c : Char) : Bool :=
  c = ' ' || c = '\t' || c = '\n' || c = '\r' || c = '\x0b' || c = '\x0c'

/-- Python `\d` on ASCII. -/
def isDigitCh (c : Char) : Bool := '0' ≤ c && c ≤ '9'

/-- ASCII letter. -/
def isLetterCh (c : Char) : Bool := ('A' ≤ c && c ≤ 'Z') || ('a' ≤ c && c ≤ 'z')

/-- Python `\w` on ASCII: letters, digits, underscore. -/
def isWordCh (c : Char) : Bool := isLetterCh c || isDigitCh c || c = '_'

/-! ## Python string primitives -/

/-- Python `str.lower()` (ASCII). -/
def lowerS (s : Str) : Str := s.map Char.toLower

/-- Python `str.replace(' ', '')`. -/
def removeSpaces (s : Str) : Str := s.filter (fun c => c ≠ ' ')

/-- Drop trailing Python whitespace. -/
def dropTrailingWs (s : Str) : Str := (s.reverse.dropWhile isPySpace).reverse

/-- Python `str.strip()`. -/
def pyStrip (s : Str) : Str := dropTrailingWs (s.dropWhile isPySpace)

theorem length_dropWhile_le_aux (p : α → Bool) : ∀ l : List α, (l.dropWhile p).length ≤ l.length
  | [] => Nat.le_refl _
  | c :: rest => by
    rw [List.dropWhile_cons]
    split
    · exact Nat.le_succ_of_le (length_dropWhile_le_aux p rest)
    · exact Nat.le_refl _

/-- Accumulator loop for `pySplit`: `acc` is the current token, reversed. -/
def pySplitAux : Str → Str → List Str
  | acc, [] => if acc.isEmpty then [] else [acc.reverse]
  | acc, c :: rest =>
    if isPySpace c then
      (if acc.isEmpty then pySplitAux [] rest else acc.reverse :: pySplitAux [] rest)
    else pySplitAux (c :: acc) rest

/-- Python `str.split()` (split on whitespace runs, discarding empty pieces). -/
def pySplit (s : Str) : List Str := pySplitAux [] s

/-- Python `str.split('\n')` (keeps empty pieces). -/
def splitLines (s : Str) : List Str := s.splitOn '\n'

/-- Python `"sep".join`. -/
def joinSep (sep : Str) : List Str → Str
  | [] => []
  | [t] => t
  | t :: rest => t ++ sep ++ joinSep sep rest

/-- Python substring test `needle in haystack`. -/
def containsSub (haystack needle : Str) : Bool :=
  needle.isPrefixOf haystack ||
    (match haystack with
     | [] => false
     | _ :: t => containsSub t needle)

/-! ## Regex machinery for the Aadhaar-number patterns

The source compiles `\b(\d{4}\s?\d{4}\s?\d{4})\b` (line 33) and, as
fallbacks, a labelled pattern and the groupless pattern
`\d{4}\s?\d{4}\s?\d{4}(?=\s*\(?\d{1,2}\)?)` (lines 162-165).
-/

/-- Match `\d{4}` at the head: four digit characters. -/
def take4digits : Str → Option (Str × Str)
  | a :: b :: c :: d :: rest =>
    if isDigitCh a && isDigitCh b && isDigitCh c && isDigitCh d then
      some ([a, b, c, d], rest)
    else none
  | _ => none

/-- The final `\d{4}` of the triple pattern followed by the continuation
test `k` (trailing `\b` or lookahead); `d1 ++ w1 ++ d2 ++ w2` has already
been consumed. -/
def tripleFin (k : Str → Bool) (d1 w1 d2 w2 : Str) (r : Str) : Option (Str × Str) :=
  match take4digits r with
  | none => none
  | some (d3, r3) =>
    if k r3 then some (d1 ++ w1 ++ d2 ++ w2 ++ d3, r3) else none

/-- After `\d{4}\s?` has consumed `d1 ++ w1`, match `\d{4}\s?\d{4}` and then
require the continuation test `k` on the rest, with greedy-`\s?`
backtracking. Returns (captured group, rest after group). -/
def tripleTail (k : Str → Bool) (d1 w1 : Str) (cs : Str) : Option (Str × Str) :=
  match take4digits cs with
  | none => none
  | some (d2, r2) =>
    match r2 with
    | c :: rest =>
      if isPySpace c then
        (tripleFin k d1 w1 d2 [c] rest) <|> (tripleFin k d1 w1 d2 [] (c :: rest))
      else tripleFin k d1 w1 d2 [] (c :: rest)
    | [] => tripleFin k d1 w1 d2 [] []

/-- Match `\d{4}\s?\d{4}\s?\d{4}` at the current position, then require `k`
on the remaining text (Python-greedy with backtracking over the `\s?`). -/
def matchTripleThen (k : Str → Bool) (cs : Str) : Option (Str × Str) :=
  match take4digits cs with
  | none => none
  | some (d1, r1) =>
    match r1 with
    | c :: rest =>
      if isPySpace c then (tripleTail k d1 [c] rest) <|> (tripleTail k d1 [] (c :: rest))
      else tripleTail k d1 [] (c :: rest)
    | [] => tripleTail k d1 [] []

/-- `\b` between a preceding character and a following word character. -/
def boundaryB (prev : Option Char) : Bool :=
  match prev with
  | none => true
  | some c => !isWordCh c

/-- Trailing `\b` after a word character: end of text or a non-word character. -/
def endB (rest : Str) : Bool :=
  match rest with
  | [] => true
  | c :: _ => !isWordCh c

/-- `re.search`: try every position left to right (including the end position),
threading the previous character for `\b` tests. -/
def searchWithPrev (m : Option Char → Str → Option α) : Option Char → Str → Option α
  | prev, [] => m prev []
  | prev, c :: rest => (m prev (c :: rest)) <|> searchWithPrev m (some c) rest

/-- `re.search` for patterns with no leading `\b`. -/
def searchNoB (m : Str → Option α) : Str → Option α :=
  searchWithPrev (fun _ cs => m cs) none

/-- The standard pattern `\b(\d{4}\s?\d{4}\s?\d{4})\b` at one position. -/
def mStd (prev : Option Char) (cs : Str) : Option (Str × Str) :=
  if boundaryB prev then matchTripleThen endB cs else none

/-! ### Backtracking continuation combinators (shared by the label patterns) -/

/-- Case-insensitive literal: consume `lit`, yield the rest. -/
def matchLitCI : Str → Str → Option Str
  | [], cs => some cs
  | _ :: _, [] => none
  | l :: ls, c :: cs => if c.toLower = l.toLower then matchLitCI ls cs else none

/-- Continuation form of `matchLitCI`. -/
def litCIThen (lit : Str) (k : Str → Option α) (cs : Str) : Option α :=
  match matchLitCI lit cs with
  | some rest => k rest
  | none => none

/-- Greedy `\s*` with backtracking into the continuation. -/
def wsStarThen (k : Str → Option α) : Str → Option α
  | [] => k []
  | c :: rest =>
    if isPySpace c then (wsStarThen k rest) <|> k (c :: rest) else k (c :: rest)

/-- Greedy `\s+` with backtracking into the continuation. -/
def wsPlusThen (k : Str → Option α) : Str → Option α
  | [] => none
  | c :: rest => if isPySpace c then wsStarThen k rest else none

/-- Greedy optional single character (e.g. `[:]?`, `\.?`). -/
def optChThen (ch : Char) (k : Str → Option α) (cs : Str) : Option α :=
  match cs with
  | c :: rest => if c = ch then (k rest) <|> k (c :: rest) else k (c :: rest)
  | [] => k []

/-- The label alternation `(?:Aadhaar|Aadhar|आधार|UID)` of line 163. -/
def aadhaarLabelThen (k : Str → Option α) (cs : Str) : Option α :=
  litCIThen (str "Aadhaar") k cs <|> litCIThen (str "Aadhar") k cs <|>
  litCIThen (str "आधार") k cs <|> litCIThen (str "UID") k cs

/-- The optional `(?:Number|No\.?)?` of line 163 (greedy, ordered alternatives). -/
def numberWordThen (k : Str → Option α) (cs : Str) : Option α :=
  litCIThen (str "Number") k cs <|> litCIThen (str "No.") k cs <|>
  litCIThen (str "No") k cs <|> k cs

/-- Label pattern 1 (line 163):
`(?:Aadhaar|Aadhar|आधार|UID)\s*(?:Number|No\.?)?\s*[:]?\s*(\d{4}\s?\d{4}\s?\d{4})`. -/
def mLab1 (cs : Str) : Option (Str × Str) :=
  aadhaarLabelThen (fun r1 =>
    wsStarThen (fun r2 =>
      numberWordThen (fun r3 =>
        wsStarThen (fun r4 =>
          optChThen ':' (fun r5 =>
            wsStarThen (fun r6 =>
              matchTripleThen (fun _ => true) r6) r5) r4) r3) r2) r1) cs

/-- The lookahead `(?=\s*\(?\d{1,2}\)?)` of line 164: after skipping
whitespace, a digit, or an opening parenthesis followed by a digit
(the trailing `\)?` and the second digit are optional and never fail). -/
def versionLookahead (rest : Str) : Bool :=
  match rest.dropWhile isPySpace with
  | '(' :: t =>
    match t with
    | d :: _ => isDigitCh d
    | [] => false
  | d :: _ => isDigitCh d
  | [] => false

/-- Label pattern 2 (line 164): `\d{4}\s?\d{4}\s?\d{4}(?=\s*\(?\d{1,2}\)?)`.
Note: this pattern has NO capture group. -/
def mLab2 (cs : Str) : Option (Str × Str) :=
  matchTripleThen versionLookahead cs

/-- The length-12 / leading-digit validity check of lines 158 and 171:
`len(aadhaar) == 12 and aadhaar[0] not in ['0', '1']`. -/
def aadhaarOk (a : Str) : Bool :=
  a.length = 12 &&
    (match a with
     | c :: _ => !(c = '0' || c = '1')
     | [] => false)

/-- The second iteration of the label-pattern loop of lines 167-172: the
version-indicator pattern of line 164 has no capture group, so
`match.group(1)` raises `IndexError` whenever it matches. -/
def extract_aadhaar_label2 (text : Str) : Except PyErr (Option Str) :=
  match searchNoB mLab2 text with
  | some _ => .error .noSuchGroup
  | none => .ok none

/-- The first iteration of the label-pattern loop of lines 167-172; an
invalid candidate falls through to the next pattern. -/
def extract_aadhaar_labels (text : Str) : Except PyErr (Option Str) :=
  match searchNoB mLab1 text with
  | some (g, _) =>
    if aadhaarOk (removeSpaces g) then .ok (some (removeSpaces g))
    else extract_aadhaar_label2 text
  | none => extract_aadhaar_label2 text

/-- `AadhaarVerifier.extract_aadhaar` (lines 151-174). -/
def extract_aadhaar (text : Str) : Except PyErr (Option Str) :=
  match searchWithPrev mStd none text with
  | some (g, _) =>
    if aadhaarOk (removeSpaces g) then .ok (some (removeSpaces g))
    else extract_aadhaar_labels text
  | none => extract_aadhaar_labels text

/-! ## Name extraction (`name_patterns` of lines 36-41, `re.finditer` with
`re.IGNORECASE`, `extract_name` and `validate_name_candidate`) -/

/-- The character class `[A-Za-z\s\-\.]` of line 118. -/
def nameClassCh (c : Char) : Bool :=
  isLetterCh c || isPySpace c || c = '-' || c = '.'

/-- `AadhaarVerifier.validate_name_candidate` (lines 111-126).  `fr` is
`fuzz.ratio`.  `input_name.split()[0]` raises `IndexError` when the claimed
name has no whitespace-separated token (and likewise for the candidate). -/
def validate_name_candidate (fr : Str → Str → Nat) (candidate input_name : Str) :
    Except PyErr Bool :=
  if candidate.isEmpty || candidate.length > 40 then .ok false
  else if !candidate.all nameClassCh then .ok false
  else
    match pySplit input_name with
    | [] => .error .indexError
    | i0 :: _ =>
      let input_first_name := lowerS i0
      match pySplit candidate with
      | [] => .error .indexError
      | c0 :: _ =>
        let candidate_first_name := lowerS c0
        .ok (60 < fr input_first_name candidate_first_name ||
          containsSub (lowerS candidate) input_first_name)

/-- `[^\n]+` (greedy; nothing follows it in the patterns that use it). -/
def notNlPlus (cs : Str) : Option (Str × Str) :=
  let g := cs.takeWhile (fun c => c ≠ '\n')
  if g.isEmpty then none else some (g, cs.dropWhile (fun c => c ≠ '\n'))

/-- The `(?:Name|name|नाम|NAME)` alternation of line 37 (case-insensitive). -/
def nameLabelThen (k : Str → Option α) (cs : Str) : Option α :=
  litCIThen (str "Name") k cs <|> litCIThen (str "name") k cs <|>
  litCIThen (str "नाम") k cs <|> litCIThen (str "NAME") k cs

/-- Name pattern 1 (line 37): `(?:Name|name|नाम|NAME)\s*[:]?\s*([^\n]+)`. -/
def mP1 (cs : Str) : Option (Str × Str) :=
  nameLabelThen (fun r1 =>
    wsStarThen (fun r2 =>
      optChThen ':' (fun r3 =>
        wsStarThen (fun r4 => notNlPlus r4) r3) r2) r1) cs

/-- Name pattern 2 (line 38): `To\s+(.+)` (case-insensitive). -/
def mP2 (cs : Str) : Option (Str × Str) :=
  litCIThen (str "To") (fun r => wsPlusThen (fun r' => notNlPlus r') r) cs

/-- The honorific alternation of line 39:
`(?:Mr\.?|Ms\.?|Mrs\.?|Shri|Smt|Km)` (case-insensitive, ordered). -/
def honorificThen (k : Str → Option α) (cs : Str) : Option α :=
  litCIThen (str "Mr") (optChThen '.' k) cs <|>
  litCIThen (str "Ms") (optChThen '.' k) cs <|>
  litCIThen (str "Mrs") (optChThen '.' k) cs <|>
  litCIThen (str "Shri") k cs <|>
  litCIThen (str "Smt") k cs <|>
  litCIThen (str "Km") k cs

/-- Name pattern 3 (line 39): honorific followed by `\s+(.+)`. -/
def mP3 (cs : Str) : Option (Str × Str) :=
  honorificThen (fun r => wsPlusThen (fun r' => notNlPlus r') r) cs

/-- One `\s+[A-Z][a-z]+` repetition step of name pattern 4, taken greedily.
With `re.IGNORECASE` the classes `[A-Z]` and `[a-z]` both match any ASCII
letter, so a token is a maximal letter run of length at least 2; maximal
runs are exact here because `\s`, letters and the `$` positions are
mutually exclusive. -/
def p4LoopFuel (fuel : Nat) (acc : Str) (cs : Str) : Option (Str × Str) :=
  match fuel with
  | 0 => none
  | fuel + 1 =>
    let w := cs.takeWhile isPySpace
    let r1 := cs.dropWhile isPySpace
    if w.isEmpty then none
    else
      let l := r1.takeWhile isLetterCh
      let r2 := r1.dropWhile isLetterCh
      if l.length < 2 then none
      else
        match p4LoopFuel fuel (acc ++ w ++ l) r2 with
        | some res => some res
        | none => some (acc ++ w ++ l, r2)

/-- The repetition loop, with enough fuel that it never runs out (every
iteration consumes at least one whitespace character). -/
def p4Loop (acc : Str) (cs : Str) : Option (Str × Str) :=
  p4LoopFuel (cs.length + 1) acc cs

/-- `$` without `re.MULTILINE`: end of text, or just before a final newline. -/
def dollarEnd (rest : Str) : Bool := rest.isEmpty || rest = ['\n']

/-- Name pattern 4 (line 40): `^([A-Z][a-z]+(?:\s+[A-Z][a-z]+)+)$`.
Anchored at the start of the pooled text (no `re.MULTILINE`). -/
def mP4 (cs : Str) : Option Str :=
  let l1 := cs.takeWhile isLetterCh
  let r1 := cs.dropWhile isLetterCh
  if l1.length < 2 then none
  else
    match p4Loop [] r1 with
    | some (reps, rest) => if dollarEnd rest then some (l1 ++ reps) else none
    | none => none

/-- Fuelled scanning loop for `re.finditer`. -/
def finditerFuel (m : Str → Option (Str × Str)) : Nat → Str → List Str
  | 0, _ => []
  | _ + 1, [] =>
    (match m [] with
     | some (g, _) => [g]
     | none => [])
  | fuel + 1, c :: rest =>
    match m (c :: rest) with
    | some (g, after) =>
      if after.length < rest.length + 1 then g :: finditerFuel m fuel after
      else g :: finditerFuel m fuel rest
    | none => finditerFuel m fuel rest

/-- `re.finditer`: all non-overlapping matches, scanning left to right and
resuming after each match (after the next position for a zero-width
match).  The fuel is enough that it never runs out: every step strictly
shortens the text. -/
def finditer (m : Str → Option (Str × Str)) (cs : Str) : List Str :=
  finditerFuel m (cs.length + 1) cs

/-- All `match.group(1)` results of the four name patterns, in the scan
order of lines 88-91 (pattern 4 is start-anchored, so it yields at most
one match). -/
def name_pattern_groups (text : Str) : List Str :=
  finditer mP1 text ++ finditer mP2 text ++ finditer mP3 text ++
    (match mP4 text with
     | some g => [g]
     | none => [])

/-- The pattern phase of `extract_name` (lines 88-97): validate each
candidate and keep the best `fuzz.ratio` score (strictly better wins, so
the first candidate attaining the best score is kept). -/
def scanCandidates (fr : Str → Str → Nat) (input_name : Str) :
    List Str → Option Str → Nat → Except PyErr (Option Str × Nat)
  | [], best, bestScore => .ok (best, bestScore)
  | g :: gs, best, bestScore => do
    let candidate := pyStrip g
    let v ← validate_name_candidate fr candidate input_name
    if v then
      let score := fr (lowerS input_name) (lowerS candidate)
      if bestScore < score then scanCandidates fr input_name gs (some candidate) score
      else scanCandidates fr input_name gs best bestScore
    else scanCandidates fr input_name gs best bestScore

/-- The line-by-line fallback of `extract_name` (lines 100-107). `fp` is
`fuzz.partial_ratio`. -/
def scanLines (fp : Str → Str → Nat) (input_name : Str) :
    List Str → Option Str → Nat → Option Str × Nat
  | [], best, bestScore => (best, bestScore)
  | l :: ls, best, bestScore =>
    let line := pyStrip l
    if 3 < line.length && line.length < 40 && !line.any isDigitCh then
      let score := fp (lowerS input_name) (lowerS line)
      if bestScore < score then scanLines fp input_name ls (some line) score
      else scanLines fp input_name ls best bestScore
    else scanLines fp input_name ls best bestScore

/-- `AadhaarVerifier.extract_name` (lines 82-109).  `fr` is `fuzz.ratio`,
`fp` is `fuzz.partial_ratio`; the acceptance threshold is the source
constant `self.min_name_similarity = 75`. -/
def extract_name (fr fp : Str → Str → Nat) (text input_name : Str) :
    Except PyErr (Option Str) := do
  let (best, bestScore) ← scanCandidates fr input_name (name_pattern_groups text) none 0
  let (best2, bestScore2) :=
    if bestScore < 75 then scanLines fp input_name (splitLines text) best bestScore
    else (best, bestScore)
  return (if 75 ≤ bestScore2 then best2 else none)

/-! ## Date-of-birth extraction (`extract_dob`, lines 128-149) -/

/-- Match `\d{2}` at the head. -/
def take2digits : Str → Option (Str × Str)
  | a :: b :: rest => if isDigitCh a && isDigitCh b then some ([a, b], rest) else none
  | _ => none

/-- Match the slash-or-hyphen separator class of the date patterns. -/
def takeSep : Str → Option (Char × Str)
  | c :: rest => if c = '/' || c = '-' then some (c, rest) else none
  | [] => none

/-- Date pattern 1 (line 132): two digits, separator, two digits,
separator, four digits, with word boundaries on both sides. -/
def mDob1 (prev : Option Char) (cs : Str) : Option (Str × Str) :=
  if boundaryB prev then
    match take2digits cs with
    | none => none
    | some (d1, r1) =>
      match takeSep r1 with
      | none => none
      | some (s1, r2) =>
        match take2digits r2 with
        | none => none
        | some (d2, r3) =>
          match takeSep r3 with
          | none => none
          | some (s2, r4) =>
            match take4digits r4 with
            | none => none
            | some (y, r5) =>
              if endB r5 then some (d1 ++ [s1] ++ d2 ++ [s2] ++ y, r5) else none
  else none

/-- Date pattern 2 (line 133): four digits, separator, two digits,
separator, two digits, with word boundaries on both sides. -/
def mDob2 (prev : Option Char) (cs : Str) : Option (Str × Str) :=
  if boundaryB prev then
    match take4digits cs with
    | none => none
    | some (y, r1) =>
      match takeSep r1 with
      | none => none
      | some (s1, r2) =>
        match take2digits r2 with
        | none => none
        | some (d1, r3) =>
          match takeSep r3 with
          | none => none
          | some (s2, r4) =>
            match take2digits r4 with
            | none => none
            | some (d2, r5) =>
              if endB r5 then some (y ++ [s1] ++ d1 ++ [s2] ++ d2, r5) else none
  else none

/-- Case-insensitive literal that also returns the consumed span. -/
def litCISpan (lit : Str) (cs : Str) : Option (Str × Str) :=
  match matchLitCI lit cs with
  | some rest => some (cs.take lit.length, rest)
  | none => none

/-- The month alternation of line 134 (`Jan|Feb|...|Dec`, case-insensitive).
The alternatives are pairwise distinct three-character literals, so at most
one can match at a given position. -/
def monthLit (cs : Str) : Option (Str × Str) :=
  litCISpan (str "Jan") cs <|> litCISpan (str "Feb") cs <|> litCISpan (str "Mar") cs <|>
  litCISpan (str "Apr") cs <|> litCISpan (str "May") cs <|> litCISpan (str "Jun") cs <|>
  litCISpan (str "Jul") cs <|> litCISpan (str "Aug") cs <|> litCISpan (str "Sep") cs <|>
  litCISpan (str "Oct") cs <|> litCISpan (str "Nov") cs <|> litCISpan (str "Dec") cs

/-- The tail `\s+Month[a-z]*\s+\d{4}\b` of date pattern 3, after the leading
day digits `d`.  Maximal whitespace/letter runs are exact because the
neighbouring classes are disjoint. -/
def mDob3core (d : Str) (cs : Str) : Option (Str × Str) :=
  let w1 := cs.takeWhile isPySpace
  let r1 := cs.dropWhile isPySpace
  if w1.isEmpty then none
  else
    match monthLit r1 with
    | none => none
    | some (mon, r2) =>
      let extra := r2.takeWhile isLetterCh
      let r3 := r2.dropWhile isLetterCh
      let w2 := r3.takeWhile isPySpace
      let r4 := r3.dropWhile isPySpace
      if w2.isEmpty then none
      else
        match take4digits r4 with
        | none => none
        | some (y, r5) =>
          if endB r5 then some (d ++ w1 ++ mon ++ extra ++ w2 ++ y, r5) else none

/-- Match `\d{1,2}` (greedy: two digits first) then the pattern-3 tail. -/
def mDob3digits (cs : Str) : Option (Str × Str) :=
  (match take2digits cs with
   | some (d, r) => mDob3core d r
   | none => none) <|>
  (match cs with
   | c :: r => if isDigitCh c then mDob3core [c] r else none
   | [] => none)

/-- Date pattern 3 (line 134):
`\b(\d{1,2}\s+(?:Jan|...|Dec)[a-z]*\s+\d{4})\b` (case-insensitive). -/
def mDob3 (prev : Option Char) (cs : Str) : Option (Str × Str) :=
  if boundaryB prev then mDob3digits cs else none

/-- The label alternation of line 135:
`(?:DOB|Dob|dob|Date of Birth|जन्म तिथि)` (case-insensitive). -/
def dobLabelThen (k : Str → Option α) (cs : Str) : Option α :=
  litCIThen (str "DOB") k cs <|> litCIThen (str "Dob") k cs <|>
  litCIThen (str "dob") k cs <|> litCIThen (str "Date of Birth") k cs <|>
  litCIThen (str "जन्म तिथि") k cs

/-- Date pattern 4 (line 135):
`\b(?:DOB|Dob|dob|Date of Birth|जन्म तिथि)\s*[:]?\s*([^\n]+)`. -/
def mDob4 (prev : Option Char) (cs : Str) : Option (Str × Str) :=
  if boundaryB prev then
    dobLabelThen (fun r1 =>
      wsStarThen (fun r2 =>
        optChThen ':' (fun r3 =>
          wsStarThen (fun r4 => notNlPlus r4) r3) r2) r1) cs
  else none

/-- Zero-pad a numeral to two characters (Python `%d` / `%m`). -/
def pad2 (n : Nat) : Str :=
  let ds := Nat.toDigits 10 n
  if ds.length < 2 then '0' :: ds else ds

/-- Zero-pad a numeral to four characters (Python `%Y`). -/
def pad4 (n : Nat) : Str :=
  let ds := Nat.toDigits 10 n
  List.replicate (4 - ds.length) '0' ++ ds

/-- Python `parsed_date.strftime('%d-%m-%Y')` (line 145). -/
def strftimeDMY (d : PyDate) : Str :=
  pad2 d.day ++ ['-'] ++ pad2 d.month ++ ['-'] ++ pad4 d.year

/-- One iteration of the pattern loop of lines 138-147: if the pattern
matched, strip the group and try to parse it; an unparsable match falls
through to the next pattern (`except ValueError: continue`). -/
def dobAttempt (parseD : Str → Option PyDate) (res : Option (Str × Str))
    (next : Option Str) : Option Str :=
  match res with
  | some (g, _) =>
    match parseD (pyStrip g) with
    | some d => some (strftimeDMY d)
    | none => next
  | none => next

/-- `AadhaarVerifier.extract_dob` (lines 128-149). -/
def extract_dob (parseD : Str → Option PyDate) (text : Str) : Option Str :=
  dobAttempt parseD (searchWithPrev mDob1 none text)
    (dobAttempt parseD (searchWithPrev mDob2 none text)
      (dobAttempt parseD (searchWithPrev mDob3 none text)
        (dobAttempt parseD (searchWithPrev mDob4 none text) none)))

/-! ## Data model -/

/-- The `extracted` dict of `verify_aadhaar` (keys `name`, `dob`, `aadhaar`). -/
structure Extracted where
  name : Option Str
  dob : Option Str
  aadhaar : Option Str
deriving DecidableEq, Repr

/-- The `results` dict of `verify_details`. -/
structure MRes where
  name_match : Bool
  dob_match : Bool
  aadhaar_match : Bool
  all_match : Bool
deriving DecidableEq, Repr

/-- Python truthiness of an optional string (`None` and `''` are falsy). -/
def truthyS : Option Str → Bool
  | some s => !s.isEmpty
  | none => false

/-- `AadhaarVerifier.verify_details` (lines 176-209).
`tsr` is `fuzz.token_sort_ratio` and `parseD` is
`dateutil.parser.parse(·, dayfirst=True)` (`none` models `ValueError`);
both are external collaborators.  The minimum name similarity is the
source constant `self.min_name_similarity = 75`. -/
def verify_details (tsr : Str → Str → Nat) (parseD : Str → Option PyDate)
    (extracted : Extracted) (input_name input_dob input_aadhaar : Str) : MRes :=
  let name_match :=
    match extracted.name with
    | some n =>
      if !n.isEmpty && !input_name.isEmpty then
        75 ≤ tsr (lowerS input_name) (lowerS n)
      else false
    | none => false
  let dob_match :=
    match extracted.dob with
    | some d =>
      if !d.isEmpty && !input_dob.isEmpty then
        match parseD d, parseD input_dob with
        | some ed, some id' => ed = id'
        | _, _ => false
      else false
    | none => false
  let aadhaar_match :=
    match extracted.aadhaar with
    | some a =>
      if !a.isEmpty && !input_aadhaar.isEmpty then
        removeSpaces a = removeSpaces input_aadhaar
      else false
    | none => false
  { name_match := name_match
    dob_match := dob_match
    aadhaar_match := aadhaar_match
    all_match := name_match && dob_match && aadhaar_match }

/-- `AadhaarVerifier.calculate_age` (lines 211-224). `parseD` models
`dateutil.parser.parse(·, dayfirst=True)`; `today` is `datetime.now()`. -/
def calculate_age (parseD : Str → Option PyDate) (today : PyDate)
    (dob_str : Option Str) : Option Int :=
  match dob_str with
  | none => none
  | some s =>
    if s.isEmpty then none
    else
      match parseD s with
      | none => none
      | some dob =>
        let age : Int := (today.year : Int) - (dob.year : Int)
        if pairLt (today.month, today.day) (dob.month, dob.day) then some (age - 1)
        else some age

/-- The teen-bracket test of line 276: `age is not None and 13 <= age < 20`. -/
def isTeen : Option Int → Bool
  | none => false
  | some a => 13 ≤ a && a < 20

/-! ## Pipeline orchestrator (`preprocess_image`, `extract_text`,
`verify_aadhaar`, lines 43-80 and 226-294).  OpenCV transforms, image
loading and Tesseract are external collaborators. -/

/-- A Tesseract invocation configuration: the whitelist configuration of
line 20 (`self.tesseract_config`), or a bare page-segmentation mode. -/
inductive OcrCfg where
  | whitelist : OcrCfg
  | psm : Nat → OcrCfg
deriving DecidableEq, Repr

/-- External collaborators of the pipeline, over an abstract image type. -/
structure Ext (Img : Type) where
  imread : Str → Option Img
  cvtColor : Img → Img
  threshOtsu : Img → Img
  adaptiveThreshold : Img → Img
  fastNlMeansDenoising : Img → Img
  bilateralFilter : Img → Img
  bitwiseNot : Img → Img
  imageToString : Img → OcrCfg → Str
  ratio : Str → Str → Nat
  partialRatio : Str → Str → Nat
  tokenSortRatio : Str → Str → Nat
  parseD : Str → Option PyDate
  today : PyDate

/-- `AadhaarVerifier.preprocess_image` (lines 43-61).  Four transforms of
the grayscale image are computed — Otsu threshold, adaptive threshold,
denoising, bilateral filter — but only three are returned: the denoised
image is discarded. -/
def preprocess_image (cvtColor threshOtsu adaptiveThreshold fastNlMeansDenoising
    bilateralFilter : Img → Img) (img : Img) : Img × Img × Img :=
  let gray := cvtColor img
  let thresh1 := threshOtsu gray
  let thresh2 := adaptiveThreshold gray
  let denoised := fastNlMeansDenoising gray
  let filtered := bilateralFilter gray
  (thresh1, thresh2, filtered)

/-- `AadhaarVerifier.extract_text` (lines 63-80): five OCR passes (primary,
inverted, and page-segmentation modes 4, 6, 11), pooled with newline
separators, keeping only non-blank results. -/
def extract_text (E : Ext Img) (img : Img) : Str :=
  let texts := [E.imageToString img .whitelist,
                E.imageToString (E.bitwiseNot img) .whitelist,
                E.imageToString img (.psm 4),
                E.imageToString img (.psm 6),
                E.imageToString img (.psm 11)]
  joinSep (str "\n") (texts.filter (fun t => !(pyStrip t).isEmpty))

/-- The pooled texts of lines 236-243: one per returned image variant. -/
def pipelineTexts (E : Ext Img) (img : Img) : List Str :=
  match preprocess_image E.cvtColor E.threshOtsu E.adaptiveThreshold
      E.fastNlMeansDenoising E.bilateralFilter img with
  | (thresh1, thresh2, filtered) =>
    [extract_text E thresh1, extract_text E thresh2, extract_text E filtered]

/-- `all(extracted.values())` (line 268): all three fields truthy. -/
def allFound (ex : Extracted) : Bool :=
  truthyS ex.name && truthyS ex.dob && truthyS ex.aadhaar

/-- The field-fill loop of lines 259-269: for each pooled text, re-run an
extractor whenever the field is still falsy, and stop early once all three
fields are truthy.  Extractor exceptions propagate. -/
def fillLoop (E : Ext Img) (input_name : Str) :
    List Str → Extracted → Except PyErr Extracted
  | [], ex => .ok ex
  | t :: ts, ex => do
    let n ← if truthyS ex.name then pure ex.name
            else extract_name E.ratio E.partialRatio t input_name
    let d := if truthyS ex.dob then ex.dob else extract_dob E.parseD t
    let a ← if truthyS ex.aadhaar then pure ex.aadhaar else extract_aadhaar t
    let ex' : Extracted := ⟨n, d, a⟩
    if allFound ex' then .ok ex' else fillLoop E input_name ts ex'

/-- The result dict of `verify_aadhaar`; every key is optional because the
three return sites of lines 233, 278-288 and 291-294 populate different
key sets. -/
structure VResult where
  success : Option Bool
  all_match : Option Bool
  name_match : Option Bool
  dob_match : Option Bool
  aadhaar_match : Option Bool
  age : Option (Option Int)
  is_teen : Option Bool
  extracted : Option Extracted
  debug_text : Option Str
  error : Option Str
deriving DecidableEq, Repr

/-- The unreadable-image result of line 233: `{'error': 'Could not read
image file'}` — note there is no `success` key. -/
def unreadableResult : VResult :=
  { success := none, all_match := none, name_match := none, dob_match := none,
    aadhaar_match := none, age := none, is_teen := none, extracted := none,
    debug_text := none, error := some (str "Could not read image file") }

/-- `str(e)` for the modelled Python exceptions. -/
def pyErrMsg : PyErr → Str
  | .indexError => str "list index out of range"
  | .noSuchGroup => str "no such group"

/-- The exception result of lines 290-294:
`{'error': f"Verification failed: {str(e)}", 'success': False}`. -/
def failureResult (e : PyErr) : VResult :=
  { success := some false, all_match := none, name_match := none,
    dob_match := none, aadhaar_match := none, age := none, is_teen := none,
    extracted := none, debug_text := none,
    error := some (str "Verification failed: " ++ pyErrMsg e) }

/-- `AadhaarVerifier.verify_aadhaar` (lines 226-294), the top-level
verification operation. -/
def verify_aadhaar (E : Ext Img) (image_path input_name input_dob input_aadhaar : Str) :
    VResult :=
  match E.imread image_path with
  | none => unreadableResult
  | some img =>
    let texts := pipelineTexts E img
    let combined := joinSep (str "\n---\n") texts
    match fillLoop E input_name texts ⟨none, none, none⟩ with
    | .error e => failureResult e
    | .ok extracted =>
      let verification :=
        verify_details E.tokenSortRatio E.parseD extracted input_name input_dob input_aadhaar
      let age := calculate_age E.parseD E.today extracted.dob
      let is_teen := isTeen age
      { success := some true
        all_match := some verification.all_match
        name_match := some verification.name_match
        dob_match := some verification.dob_match
        aadhaar_match := some verification.aadhaar_match
        age := some age
        is_teen := some is_teen
        extracted := some extracted
        debug_text := some combined
        error := none }

/-- The aadhaar-field dataflow of the orchestrator restricted to one pooled
text: run `extract_aadhaar` (lines 264-265) and feed the result into
`verify_details` (line 272), reading off the `aadhaar_match` flag. -/
def idMatchPipe (tsr : Str → Str → Nat) (parseD : Str → Option PyDate)
    (text claimed : Str) : Except PyErr Bool :=
  match extract_aadhaar text with
  | .error e => .error e
  | .ok a =>
    .ok (verify_details tsr parseD ⟨none, none, a⟩ [] [] claimed).aadhaar_match

/-! # Helper instances for concrete evaluations -/

instance {ε α : Type} [DecidableEq ε] [DecidableEq α] : DecidableEq (Except ε α) :=
  fun x y =>
    match x, y with
    | .ok a, .ok b =>
      if h : a = b then .isTrue (by rw [h]) else .isFalse (by simp [h])
    | .error a, .error b =>
      if h : a = b then .isTrue (by rw [h]) else .isFalse (by simp [h])
    | .ok _, .error _ => .isFalse (by simp)
    | .error _, .ok _ => .isFalse (by simp)

/-- An external-collaborator instance whose image loader fails. -/
def extNoImage : Ext Unit :=
  { imread := fun _ => none
    cvtColor := id, threshOtsu := id, adaptiveThreshold := id
    fastNlMeansDenoising := id, bilateralFilter := id, bitwiseNot := id
    imageToString := fun _ _ => []
    ratio := fun _ _ => 0, partialRatio := fun _ _ => 0, tokenSortRatio := fun _ _ => 0
    parseD := fun _ => none
    today := ⟨2026, 10, 12⟩ }

/-- An external-collaborator instance whose OCR yields a text on which the
ID-number extractor raises (a 14-digit run). -/
def extRaising : Ext Unit :=
  { extNoImage with
    imread := fun _ => some ()
    imageToString := fun _ c =>
      match c with
      | .whitelist => str "02345678901234"
      | _ => [] }

/-! # Structural lemmas about the Aadhaar-number matcher -/

theorem orElse_eq_some {a b : Option α} {x : α} (h : (a <|> b) = some x) :
    a = some x ∨ (a = none ∧ b = some x) := by
  cases a <;> simp_all

theorem take4digits_shape {cs d r : Str} (h : take4digits cs = some (d, r)) :
    d.length = 4 ∧ (∀ c ∈ d, isDigitCh c) ∧ cs = d ++ r := by
  match cs with
  | [] => simp [take4digits] at h
  | [a] => simp [take4digits] at h
  | [a, b] => simp [take4digits] at h
  | [a, b, c] => simp [take4digits] at h
  | a :: b :: c :: e :: rest =>
    rw [take4digits] at h
    split at h
    · rename_i hd
      simp only [Bool.and_eq_true] at hd
      cases h
      refine ⟨rfl, ?_, rfl⟩
      intro x hx
      simp only [List.mem_cons, List.not_mem_nil, or_false] at hx
      rcases hx with rfl | rfl | rfl | rfl
      · exact hd.1.1.1
      · exact hd.1.1.2
      · exact hd.1.2
      · exact hd.2
    · cases h

/-- The shape of a group captured by the pattern of line 33: three blocks
of four digits with at most one whitespace character between blocks. -/
def TripleShape (g : Str) : Prop :=
  ∃ d1 w1 d2 w2 d3, g = d1 ++ w1 ++ d2 ++ w2 ++ d3 ∧
    d1.length = 4 ∧ (∀ c ∈ d1, isDigitCh c) ∧
    (w1 = [] ∨ ∃ c, w1 = [c] ∧ isPySpace c = true) ∧
    d2.length = 4 ∧ (∀ c ∈ d2, isDigitCh c) ∧
    (w2 = [] ∨ ∃ c, w2 = [c] ∧ isPySpace c = true) ∧
    d3.length = 4 ∧ (∀ c ∈ d3, isDigitCh c)

theorem tripleFin_shape {k : Str → Bool} {d1 w1 d2 w2 r g rest : Str}
    (h : tripleFin k d1 w1 d2 w2 r = some (g, rest)) :
    ∃ d3, g = d1 ++ w1 ++ d2 ++ w2 ++ d3 ∧ d3.length = 4 ∧ ∀ c ∈ d3, isDigitCh c := by
  unfold tripleFin at h
  cases h4 : take4digits r with
  | none => simp [h4] at h
  | some pr =>
    obtain ⟨d3, r3⟩ := pr
    simp only [h4] at h
    split at h
    · cases h
      obtain ⟨hl, hd, _⟩ := take4digits_shape h4
      exact ⟨d3, rfl, hl, hd⟩
    · cases h

theorem tripleTail_shape {k : Str → Bool} {d1 w1 cs g rest : Str}
    (h : tripleTail k d1 w1 cs = some (g, rest)) :
    ∃ d2 w2 d3, g = d1 ++ w1 ++ d2 ++ w2 ++ d3 ∧
      d2.length = 4 ∧ (∀ c ∈ d2, isDigitCh c) ∧
      (w2 = [] ∨ ∃ c, w2 = [c] ∧ isPySpace c = true) ∧
      d3.length = 4 ∧ (∀ c ∈ d3, isDigitCh c) := by
  unfold tripleTail at h
  cases h4 : take4digits cs with
  | none => simp [h4] at h
  | some pr =>
    obtain ⟨d2, r2⟩ := pr
    simp only [h4] at h
    obtain ⟨hl2, hd2, _⟩ := take4digits_shape h4
    cases r2 with
    | nil =>
      dsimp only at h
      obtain ⟨d3, hg, hl3, hd3⟩ := tripleFin_shape h
      exact ⟨d2, [], d3, hg, hl2, hd2, Or.inl rfl, hl3, hd3⟩
    | cons c rest2 =>
      dsimp only at h
      by_cases hws : isPySpace c = true
      · rw [if_pos hws] at h
        rcases orElse_eq_some h with h' | ⟨_, h'⟩
        · obtain ⟨d3, hg, hl3, hd3⟩ := tripleFin_shape h'
          exact ⟨d2, [c], d3, hg, hl2, hd2, Or.inr ⟨c, rfl, hws⟩, hl3, hd3⟩
        · obtain ⟨d3, hg, hl3, hd3⟩ := tripleFin_shape h'
          exact ⟨d2, [], d3, hg, hl2, hd2, Or.inl rfl, hl3, hd3⟩
      · rw [if_neg hws] at h
        obtain ⟨d3, hg, hl3, hd3⟩ := tripleFin_shape h
        exact ⟨d2, [], d3, hg, hl2, hd2, Or.inl rfl, hl3, hd3⟩

theorem matchTripleThen_shape {k : Str → Bool} {cs g rest : Str}
    (h : matchTripleThen k cs = some (g, rest)) : TripleShape g := by
  unfold matchTripleThen at h
  cases h4 : take4digits cs with
  | none => simp [h4] at h
  | some pr =>
    obtain ⟨d1, r1⟩ := pr
    simp only [h4] at h
    obtain ⟨hl1, hd1, _⟩ := take4digits_shape h4
    cases r1 with
    | nil =>
      dsimp only at h
      obtain ⟨d2, w2, d3, hg, p⟩ := tripleTail_shape h
      exact ⟨d1, [], d2, w2, d3, hg, hl1, hd1, Or.inl rfl, p⟩
    | cons c rest2 =>
      dsimp only at h
      by_cases hws : isPySpace c = true
      · rw [if_pos hws] at h
        rcases orElse_eq_some h with h' | ⟨_, h'⟩
        · obtain ⟨d2, w2, d3, hg, p⟩ := tripleTail_shape h'
          exact ⟨d1, [c], d2, w2, d3, hg, hl1, hd1, Or.inr ⟨c, rfl, hws⟩, p⟩
        · obtain ⟨d2, w2, d3, hg, p⟩ := tripleTail_shape h'
          exact ⟨d1, [], d2, w2, d3, hg, hl1, hd1, Or.inl rfl, p⟩
      · rw [if_neg hws] at h
        obtain ⟨d2, w2, d3, hg, p⟩ := tripleTail_shape h
        exact ⟨d1, [], d2, w2, d3, hg, hl1, hd1, Or.inl rfl, p⟩

theorem digit_ne_space {c : Char} (h : isDigitCh c = true) : ¬c = ' ' := by
  rintro rfl
  simp [isDigitCh] at h

theorem removeSpaces_digits {d : Str} (hd : ∀ c ∈ d, isDigitCh c) :
    removeSpaces d = d := by
  rw [removeSpaces, List.filter_eq_self]
  intro c hc
  simpa using digit_ne_space (hd c hc)

theorem tripleShape_digits {g : Str} (hsh : TripleShape g)
    (hlen : (removeSpaces g).length = 12) : ∀ c ∈ removeSpaces g, isDigitCh c := by
  obtain ⟨d1, w1, d2, w2, d3, rfl, hl1, hd1, hw1, hl2, hd2, hw2, hl3, hd3⟩ := hsh
  rw [removeSpaces] at hlen ⊢
  simp only [List.filter_append] at hlen ⊢
  rw [show List.filter (fun c => c ≠ ' ') d1 = d1 from removeSpaces_digits hd1,
      show List.filter (fun c => c ≠ ' ') d2 = d2 from removeSpaces_digits hd2,
      show List.filter (fun c => c ≠ ' ') d3 = d3 from removeSpaces_digits hd3] at hlen ⊢
  have hw1e : List.filter (fun c => c ≠ ' ') w1 = [] := by
    simp only [List.length_append, hl1, hl2, hl3] at hlen
    have := List.length_filter_le (fun c : Char => c ≠ ' ') w1
    cases hf : List.filter (fun c => c ≠ ' ') w1 with
    | nil => rfl
    | cons a t =>
      exfalso
      rcases hw1 with rfl | ⟨c, rfl, _⟩
      · simp at hf
      · have : (List.filter (fun c => c ≠ ' ') w2).length = 0 := by
          rw [hf] at hlen
          simp at hlen
          omega
        rw [hf] at hlen
        simp at hlen
        have h1 : (a :: t).length ≤ ([c] : Str).length := hf ▸ List.length_filter_le _ _
        simp at h1
        omega
  have hw2e : List.filter (fun c => c ≠ ' ') w2 = [] := by
    rw [hw1e] at hlen
    simp only [List.length_append, hl1, hl2, hl3, List.length_nil] at hlen
    cases hf : List.filter (fun c => c ≠ ' ') w2 with
    | nil => rfl
    | cons a t =>
      exfalso
      rw [hf] at hlen
      simp at hlen
  rw [hw1e, hw2e]
  intro c hc
  simp only [List.append_nil, List.nil_append, List.mem_append] at hc
  rcases hc with (hc | hc) | hc
  · exact hd1 c hc
  · exact hd2 c hc
  · exact hd3 c hc

theorem aadhaarOk_spec {a : Str} (h : aadhaarOk a = true) :
    a.length = 12 ∧ ∀ c cs', a = c :: cs' → c ≠ '0' ∧ c ≠ '1' := by
  unfold aadhaarOk at h
  simp only [Bool.and_eq_true, decide_eq_true_eq] at h
  refine ⟨h.1, ?_⟩
  rintro c cs' rfl
  have h2 := h.2
  simp only [Bool.not_eq_eq_eq_not, Bool.not_true, Bool.or_eq_false_iff] at h2
  constructor
  · intro hc
    rw [hc] at h2
    simp at h2
  · intro hc
    rw [hc] at h2
    simp at h2

/-! # Threading lemmas: a success of a composed matcher comes from a
success of the digit-triple matcher at some position -/

theorem searchWithPrev_some {m : Option Char → Str → Option α} :
    ∀ {prev cs} {x : α}, searchWithPrev m prev cs = some x → ∃ p' cs', m p' cs' = some x := by
  intro prev cs
  induction cs generalizing prev with
  | nil => exact fun h => ⟨prev, [], h⟩
  | cons c rest ih =>
    intro x h
    rw [searchWithPrev] at h
    rcases orElse_eq_some h with h' | ⟨_, h'⟩
    · exact ⟨prev, c :: rest, h'⟩
    · exact ih h'

theorem mStd_some {prev : Option Char} {cs : Str} {x : Str × Str}
    (h : mStd prev cs = some x) : matchTripleThen endB cs = some x := by
  unfold mStd at h
  split at h
  · exact h
  · cases h

theorem litCIThen_some {lit : Str} {k : Str → Option α} {cs : Str} {x : α}
    (h : litCIThen lit k cs = some x) : ∃ r, k r = some x := by
  unfold litCIThen at h
  cases hm : matchLitCI lit cs with
  | none => simp [hm] at h
  | some r =>
    simp only [hm] at h
    exact ⟨r, h⟩

theorem wsStarThen_some {k : Str → Option α} :
    ∀ {cs : Str} {x : α}, wsStarThen k cs = some x → ∃ r, k r = some x := by
  intro cs
  induction cs with
  | nil => exact fun h => ⟨[], h⟩
  | cons c rest ih =>
    intro x h
    rw [wsStarThen] at h
    by_cases hws : isPySpace c = true
    · rw [if_pos hws] at h
      rcases orElse_eq_some h with h' | ⟨_, h'⟩
      · exact ih h'
      · exact ⟨c :: rest, h'⟩
    · rw [if_neg hws] at h
      exact ⟨c :: rest, h⟩

theorem optChThen_some {ch : Char} {k : Str → Option α} {cs : Str} {x : α}
    (h : optChThen ch k cs = some x) : ∃ r, k r = some x := by
  unfold optChThen at h
  cases cs with
  | nil => exact ⟨[], h⟩
  | cons c rest =>
    dsimp only at h
    by_cases hc : c = ch
    · rw [if_pos hc] at h
      rcases orElse_eq_some h with h' | ⟨_, h'⟩
      · exact ⟨rest, h'⟩
      · exact ⟨c :: rest, h'⟩
    · rw [if_neg hc] at h
      exact ⟨c :: rest, h⟩

theorem aadhaarLabelThen_some {k : Str → Option α} {cs : Str} {x : α}
    (h : aadhaarLabelThen k cs = some x) : ∃ r, k r = some x := by
  unfold aadhaarLabelThen at h
  rcases orElse_eq_some h with h' | ⟨_, h'⟩
  · exact litCIThen_some h'
  rcases orElse_eq_some h' with h'' | ⟨_, h''⟩
  · exact litCIThen_some h''
  rcases orElse_eq_some h'' with h3 | ⟨_, h3⟩
  · exact litCIThen_some h3
  · exact litCIThen_some h3

theorem numberWordThen_some {k : Str → Option α} {cs : Str} {x : α}
    (h : numberWordThen k cs = some x) : ∃ r, k r = some x := by
  unfold numberWordThen at h
  rcases orElse_eq_some h with h' | ⟨_, h'⟩
  · exact litCIThen_some h'
  rcases orElse_eq_some h' with h'' | ⟨_, h''⟩
  · exact litCIThen_some h''
  rcases orElse_eq_some h'' with h3 | ⟨_, h3⟩
  · exact litCIThen_some h3
  · exact ⟨cs, h3⟩

theorem mLab1_some {cs : Str} {x : Str × Str} (h : mLab1 cs = some x) :
    ∃ r, matchTripleThen (fun _ => true) r = some x := by
  unfold mLab1 at h
  obtain ⟨r1, h⟩ := aadhaarLabelThen_some h
  obtain ⟨r2, h⟩ := wsStarThen_some h
  obtain ⟨r3, h⟩ := numberWordThen_some h
  obtain ⟨r4, h⟩ := wsStarThen_some h
  obtain ⟨r5, h⟩ := optChThen_some h
  obtain ⟨r6, h⟩ := wsStarThen_some h
  exact ⟨r6, h⟩

theorem extract_aadhaar_label2_not_some {text a : Str}
    (h : extract_aadhaar_label2 text = .ok (some a)) : False := by
  unfold extract_aadhaar_label2 at h
  cases hm : searchNoB mLab2 text <;> simp [hm] at h

theorem valid_group_spec {g a : Str} (hsh : TripleShape g)
    (hok : aadhaarOk (removeSpaces g) = true) (ha : a = removeSpaces g) :
    a.length = 12 ∧ (∀ c ∈ a, isDigitCh c) ∧
      ∀ c cs', a = c :: cs' → c ≠ '0' ∧ c ≠ '1' := by
  subst ha
  obtain ⟨hlen, hhead⟩ := aadhaarOk_spec hok
  exact ⟨hlen, tripleShape_digits hsh hlen, hhead⟩

theorem extract_aadhaar_labels_ok {text a : Str}
    (h : extract_aadhaar_labels text = .ok (some a)) :
    a.length = 12 ∧ (∀ c ∈ a, isDigitCh c) ∧
      ∀ c cs', a = c :: cs' → c ≠ '0' ∧ c ≠ '1' := by
  unfold extract_aadhaar_labels at h
  cases hm : searchNoB mLab1 text with
  | none =>
    simp only [hm] at h
    exact absurd h extract_aadhaar_label2_not_some
  | some pr =>
    obtain ⟨g, rest⟩ := pr
    simp only [hm] at h
    by_cases hok : aadhaarOk (removeSpaces g) = true
    · rw [if_pos hok] at h
      injection h with h1
      injection h1 with h2
      obtain ⟨p', cs', hm'⟩ := searchWithPrev_some hm
      obtain ⟨r, htr⟩ := mLab1_some hm'
      exact valid_group_spec (matchTripleThen_shape htr) hok h2.symm
    · rw [if_neg hok] at h
      exact absurd h extract_aadhaar_label2_not_some

/-- **C2**: whenever the ID-number extractor returns a value, it is a
string of exactly 12 digits whose first character is neither '0' nor '1'. -/
theorem C2_extracted_id_valid (text a : Str)
    (h : extract_aadhaar text = .ok (some a)) :
    a.length = 12 ∧ (∀ c ∈ a, isDigitCh c) ∧
      ∀ c cs', a = c :: cs' → c ≠ '0' ∧ c ≠ '1' := by
  unfold extract_aadhaar at h
  cases hs : searchWithPrev mStd none text with
  | none =>
    simp only [hs] at h
    exact extract_aadhaar_labels_ok h
  | some pr =>
    obtain ⟨g, rest⟩ := pr
    simp only [hs] at h
    by_cases hok : aadhaarOk (removeSpaces g) = true
    · rw [if_pos hok] at h
      injection h with h1
      injection h1 with h2
      obtain ⟨p', cs', hm'⟩ := searchWithPrev_some hs
      exact valid_group_spec (matchTripleThen_shape (mStd_some hm')) hok h2.symm
    · rw [if_neg hok] at h
      exact extract_aadhaar_labels_ok h

/-- Witness for C2 at a concrete extraction. -/
theorem C2_witness :
    extract_aadhaar (str "id 2345 6789 0123 ok") = .ok (some (str "234567890123")) ∧
    ((str "234567890123").length = 12 ∧
      (∀ c ∈ str "234567890123", isDigitCh c) ∧
      ∀ c cs', str "234567890123" = c :: cs' → c ≠ '0' ∧ c ≠ '1') :=
  ⟨by decide, C2_extracted_id_valid (str "id 2345 6789 0123 ok") (str "234567890123")
    (by decide)⟩

/-! # Lemmas about stripping and splitting -/

theorem pySplitAux_ne_nil : ∀ (rest acc : Str), acc ≠ [] → pySplitAux acc rest ≠ [] := by
  intro rest
  induction rest with
  | nil =>
    intro acc hacc
    simp [pySplitAux, List.isEmpty_iff, hacc]
  | cons c t ih =>
    intro acc hacc
    rw [pySplitAux]
    by_cases hws : isPySpace c = true
    · simp [hws, List.isEmpty_iff, hacc]
    · simp only [hws, Bool.false_eq_true, if_false]
      exact ih (c :: acc) (by simp)

theorem pySplit_cons_ne_nil {c : Char} {t : Str} (h : isPySpace c = false) :
    pySplit (c :: t) ≠ [] := by
  rw [pySplit, pySplitAux]
  simp only [h, Bool.false_eq_true, if_false]
  exact pySplitAux_ne_nil t [c] (by simp)

theorem dropWhile_head {p : α → Bool} :
    ∀ {l : List α} {c t}, l.dropWhile p = c :: t → p c = false := by
  intro l
  induction l with
  | nil => intro c t h; simp [List.dropWhile] at h
  | cons a rest ih =>
    intro c t h
    rw [List.dropWhile_cons] at h
    by_cases ha : p a = true
    · rw [if_pos ha] at h
      exact ih h
    · rw [if_neg ha] at h
      cases h
      simpa using ha

theorem dropWhile_suffix_aux (p : α → Bool) :
    ∀ l : List α, ∃ u, u ++ l.dropWhile p = l := by
  intro l
  induction l with
  | nil => exact ⟨[], rfl⟩
  | cons a rest ih =>
    rw [List.dropWhile_cons]
    by_cases ha : p a = true
    · rw [if_pos ha]
      obtain ⟨u, hu⟩ := ih
      exact ⟨a :: u, by simp [hu]⟩
    · rw [if_neg ha]
      exact ⟨[], rfl⟩

theorem dropTrailingWs_isPrefix (l : Str) : ∃ t, dropTrailingWs l ++ t = l := by
  obtain ⟨u, hu⟩ := dropWhile_suffix_aux isPySpace l.reverse
  refine ⟨u.reverse, ?_⟩
  rw [dropTrailingWs]
  have := congrArg List.reverse hu
  simpa using this

theorem pyStrip_head_not_space :
    ∀ {s c t}, pyStrip s = c :: t → isPySpace c = false := by
  intro s c t h
  rw [pyStrip] at h
  obtain ⟨u, hu⟩ := dropTrailingWs_isPrefix (s.dropWhile isPySpace)
  rw [h] at hu
  exact dropWhile_head hu.symm

theorem pySplit_of_strip_ne_nil {g : Str} (h : pyStrip g ≠ []) :
    pySplit (pyStrip g) ≠ [] := by
  cases hs : pyStrip g with
  | nil => exact absurd hs h
  | cons c t => exact pySplit_cons_ne_nil (pyStrip_head_not_space hs)

/-! # Totality of the name extractor -/

theorem pyStrip_shape (g : Str) :
    pyStrip g = [] ∨ ∃ c t, pyStrip g = c :: t ∧ isPySpace c = false := by
  cases hs : pyStrip g with
  | nil => exact Or.inl rfl
  | cons c t => exact Or.inr ⟨c, t, rfl, pyStrip_head_not_space hs⟩

theorem validate_ok_of_stripped (fr : Str → Str → Nat) {candidate input_name : Str}
    (hin : pySplit input_name ≠ [])
    (hcand : candidate = [] ∨ ∃ c t, candidate = c :: t ∧ isPySpace c = false) :
    ∃ b, validate_name_candidate fr candidate input_name = .ok b := by
  rw [validate_name_candidate]
  by_cases h1 : (candidate.isEmpty || decide (candidate.length > 40)) = true
  · exact ⟨false, by rw [if_pos h1]⟩
  · rw [if_neg h1]
    by_cases h2 : (!candidate.all nameClassCh) = true
    · exact ⟨false, by rw [if_pos h2]⟩
    · rw [if_neg h2]
      cases hs : pySplit input_name with
      | nil => exact absurd hs hin
      | cons i0 it =>
        have hcs : pySplit candidate ≠ [] := by
          rcases hcand with rfl | ⟨c, t, rfl, hws⟩
          · simp at h1
          · exact pySplit_cons_ne_nil hws
        cases hc2 : pySplit candidate with
        | nil => exact absurd hc2 hcs
        | cons c0 ct => exact ⟨_, rfl⟩

theorem scanCandidates_ok {fr : Str → Str → Nat} {input_name : Str}
    (hin : pySplit input_name ≠ []) :
    ∀ (gs : List Str) (best : Option Str) (bestScore : Nat),
      ∃ r, scanCandidates fr input_name gs best bestScore = .ok r := by
  intro gs
  induction gs with
  | nil => exact fun best bs => ⟨(best, bs), rfl⟩
  | cons g rest ih =>
    intro best bs
    rw [scanCandidates]
    obtain ⟨b, hb⟩ := validate_ok_of_stripped fr hin (pyStrip_shape g)
    simp only [bind, Except.bind, hb]
    cases b
    · simpa using ih best bs
    · by_cases hlt : bs < fr (lowerS input_name) (lowerS (pyStrip g))
      · simpa [hlt] using
          ih (some (pyStrip g)) (fr (lowerS input_name) (lowerS (pyStrip g)))
      · simpa [hlt] using ih best bs

/-- Whether the modelled Python call returned normally. -/
def isOkE : Except PyErr (Option Str) → Bool
  | .ok _ => true
  | .error _ => false

theorem extract_name_ok {fr fp : Str → Str → Nat} {text input_name : Str}
    (hin : pySplit input_name ≠ []) :
    ∃ r, extract_name fr fp text input_name = .ok r := by
  rw [extract_name]
  obtain ⟨⟨best, bs⟩, hsc⟩ := scanCandidates_ok hin (name_pattern_groups text) none 0
  rw [hsc]
  exact ⟨_, rfl⟩

/-- **C10**: the name extractor is not total when the claimed name has no
token: on `"Name: John"` with an empty claimed name, candidate validation
raises `IndexError` while indexing the claimed name's first token; and it
is exception-free whenever the claimed name has at least one
non-whitespace token. -/
theorem C10_name_extractor_totality :
    extract_name (fun _ _ => 0) (fun _ _ => 0) (str "Name: John") [] =
      .error .indexError ∧
    ∀ (fr fp : Str → Str → Nat) (text input_name : Str),
      pySplit input_name ≠ [] → ∃ r, extract_name fr fp text input_name = .ok r :=
  ⟨by decide, fun _ _ _ _ hin => extract_name_ok hin⟩

/-- Witness for C10's totality side at a concrete input. -/
theorem C10_witness :
    isOkE (extract_name (fun _ _ => 7) (fun _ _ => 7) (str "Name: John")
      (str "Mike")) = true := by
  obtain ⟨r, hr⟩ := C10_name_extractor_totality.2 (fun _ _ => 7) (fun _ _ => 7)
    (str "Name: John") (str "Mike") (by decide)
  rw [hr]
  rfl

/-! # Lemmas for the positive direction of the standard-pattern search -/

theorem nonword_not_digit {c : Char} (h : isWordCh c = false) : isDigitCh c = false := by
  rw [isWordCh] at h
  simp only [Bool.or_eq_false_iff] at h
  exact h.1.2

theorem digit_not_pySpace {c : Char} (h : isDigitCh c = true) : isPySpace c = false := by
  simp only [isDigitCh, Bool.and_eq_true, decide_eq_true_eq] at h
  simp only [isPySpace, Bool.or_eq_false_iff, decide_eq_false_iff_not]
  obtain ⟨h1, h2⟩ := h
  refine ⟨⟨⟨⟨⟨?_, ?_⟩, ?_⟩, ?_⟩, ?_⟩, ?_⟩ <;> rintro rfl <;> simp_all

theorem matchTripleThen_nondigit {k : Str → Bool} {c : Char} {l : Str}
    (h : isDigitCh c = false) : matchTripleThen k (c :: l) = none := by
  rw [matchTripleThen]
  have h4 : take4digits (c :: l) = none := by
    match l with
    | [] => rfl
    | [x] => rfl
    | [x, y] => rfl
    | x :: y :: z :: rest => simp [take4digits, h]
  rw [h4]

theorem mStd_none_nondigit {prev : Option Char} {c : Char} {l : Str}
    (h : isDigitCh c = false) : mStd prev (c :: l) = none := by
  rw [mStd]
  split
  · exact matchTripleThen_nondigit h
  · rfl

theorem searchStd_skip (rest : Str) :
    ∀ (p : Str) (prev : Option Char), (∀ c ∈ p, isWordCh c = false) →
      (∀ c, prev = some c → isWordCh c = false) →
      ∃ prev', (∀ c, prev' = some c → isWordCh c = false) ∧
        searchWithPrev mStd prev (p ++ rest) = searchWithPrev mStd prev' rest := by
  intro p
  induction p with
  | nil => exact fun _ _ hprev => ⟨_, hprev, rfl⟩
  | cons c t ih =>
    intro prev hp hprev
    rw [List.cons_append, searchWithPrev]
    have hw : isWordCh c = false := hp c (by simp)
    rw [mStd_none_nondigit (nonword_not_digit hw)]
    simp only [Option.none_orElse]
    exact ih (some c) (fun c' hc' => hp c' (by simp [hc']))
      (fun c' hc' => by cases hc'; exact hw)

theorem length12_split {l : Str} (h : l.length = 12) :
    ∃ d1 d2 d3 : Str, l = d1 ++ d2 ++ d3 ∧
      d1.length = 4 ∧ d2.length = 4 ∧ d3.length = 4 ∧
      d1 = l.take 4 ∧ d2 = (l.drop 4).take 4 ∧ d3 = l.drop 8 := by
  refine ⟨l.take 4, (l.drop 4).take 4, l.drop 8, ?_, ?_, ?_, ?_, rfl, rfl, rfl⟩
  · have h8 : l.drop 8 = (l.drop 4).drop 4 := by
      rw [List.drop_drop]
    rw [h8, List.append_assoc, List.take_append_drop, List.take_append_drop]
  · simp only [List.length_take, h]
    omega
  · simp only [List.length_take, List.length_drop, h]
    omega
  · simp only [List.length_drop, h]

theorem length_four_explode {l : Str} (h : l.length = 4) :
    ∃ a b c d, l = [a, b, c, d] := by
  rcases l with _ | ⟨a, l⟩
  · simp only [List.length_nil] at h
    omega
  rcases l with _ | ⟨b, l⟩
  · simp only [List.length_cons, List.length_nil] at h
    omega
  rcases l with _ | ⟨c, l⟩
  · simp only [List.length_cons, List.length_nil] at h
    omega
  rcases l with _ | ⟨d, l⟩
  · simp only [List.length_cons, List.length_nil] at h
    omega
  rcases l with _ | ⟨e, l⟩
  · exact ⟨a, b, c, d, rfl⟩
  · simp only [List.length_cons] at h
    omega

theorem take4digits_block {l r : Str} (hl : l.length = 4) (hd : ∀ c ∈ l, isDigitCh c) :
    take4digits (l ++ r) = some (l, r) := by
  obtain ⟨a, b, c, d, rfl⟩ := length_four_explode hl
  have hcond : (isDigitCh a && isDigitCh b && isDigitCh c && isDigitCh d) = true := by
    simp only [Bool.and_eq_true]
    exact ⟨⟨⟨hd a (by simp), hd b (by simp)⟩, hd c (by simp)⟩, hd d (by simp)⟩
  simp [take4digits, hcond]

/-- The triple matcher accepts a bare 12-digit run when the continuation
test holds on the rest. -/
theorem matchTriple_digits {N s : Str} (hlen : N.length = 12)
    (hdig : ∀ c ∈ N, isDigitCh c) {k : Str → Bool} (hk : k s = true) :
    matchTripleThen k (N ++ s) = some (N, s) := by
  obtain ⟨d1, d2, d3, hN, h1, h2, h3, _, _, _⟩ := length12_split hlen
  subst hN
  have hd1 : ∀ c ∈ d1, isDigitCh c = true := fun c hc => hdig c (by simp [hc])
  have hd2 : ∀ c ∈ d2, isDigitCh c = true := fun c hc => hdig c (by simp [hc])
  have hd3 : ∀ c ∈ d3, isDigitCh c = true := fun c hc => hdig c (by simp [hc])
  obtain ⟨b1, b2, b3, b4, rfl⟩ := length_four_explode h2
  obtain ⟨e1, e2, e3, e4, rfl⟩ := length_four_explode h3
  have hwb1 : isPySpace b1 = false := digit_not_pySpace (hd2 b1 (by simp))
  have hwe1 : isPySpace e1 = false := digit_not_pySpace (hd3 e1 (by simp))
  have hb : (isDigitCh b1 && isDigitCh b2 && isDigitCh b3 && isDigitCh b4) = true := by
    simp only [Bool.and_eq_true]
    exact ⟨⟨⟨hd2 b1 (by simp), hd2 b2 (by simp)⟩, hd2 b3 (by simp)⟩, hd2 b4 (by simp)⟩
  have he : (isDigitCh e1 && isDigitCh e2 && isDigitCh e3 && isDigitCh e4) = true := by
    simp only [Bool.and_eq_true]
    exact ⟨⟨⟨hd3 e1 (by simp), hd3 e2 (by simp)⟩, hd3 e3 (by simp)⟩, hd3 e4 (by simp)⟩
  have e0 : (d1 ++ [b1, b2, b3, b4] ++ [e1, e2, e3, e4]) ++ s
      = d1 ++ ([b1, b2, b3, b4] ++ ([e1, e2, e3, e4] ++ s)) := by
    simp [List.append_assoc]
  rw [matchTripleThen, e0, take4digits_block h1 hd1]
  simp [tripleTail, tripleFin, take4digits, hwb1, hwe1, hb, he, hk]

/-- The claimed number with its 4-4-4 space grouping. -/
def grouped444 (N : Str) : Str :=
  N.take 4 ++ ' ' :: ((N.drop 4).take 4 ++ ' ' :: N.drop 8)

/-- The triple matcher accepts the space-grouped form as well. -/
theorem matchTriple_grouped {N s : Str} (hlen : N.length = 12)
    (hdig : ∀ c ∈ N, isDigitCh c) {k : Str → Bool} (hk : k s = true) :
    matchTripleThen k (grouped444 N ++ s) = some (grouped444 N, s) := by
  obtain ⟨d1, d2, d3, hN, h1, h2, h3, ht1, ht2, ht3⟩ := length12_split hlen
  have hd1 : ∀ c ∈ d1, isDigitCh c = true := fun c hc => hdig c (hN ▸ by simp [hc])
  have hd2 : ∀ c ∈ d2, isDigitCh c = true := fun c hc => hdig c (hN ▸ by simp [hc])
  have hd3 : ∀ c ∈ d3, isDigitCh c = true := fun c hc => hdig c (hN ▸ by simp [hc])
  have hGr : grouped444 N = d1 ++ ' ' :: (d2 ++ ' ' :: d3) := by
    rw [grouped444, ← ht1, ← ht2, ← ht3]
  rw [hGr]
  obtain ⟨b1, b2, b3, b4, rfl⟩ := length_four_explode h2
  obtain ⟨e1, e2, e3, e4, rfl⟩ := length_four_explode h3
  have hb : (isDigitCh b1 && isDigitCh b2 && isDigitCh b3 && isDigitCh b4) = true := by
    simp only [Bool.and_eq_true]
    exact ⟨⟨⟨hd2 b1 (by simp), hd2 b2 (by simp)⟩, hd2 b3 (by simp)⟩, hd2 b4 (by simp)⟩
  have he : (isDigitCh e1 && isDigitCh e2 && isDigitCh e3 && isDigitCh e4) = true := by
    simp only [Bool.and_eq_true]
    exact ⟨⟨⟨hd3 e1 (by simp), hd3 e2 (by simp)⟩, hd3 e3 (by simp)⟩, hd3 e4 (by simp)⟩
  have e0 : (d1 ++ ' ' :: ([b1, b2, b3, b4] ++ ' ' :: [e1, e2, e3, e4])) ++ s
      = d1 ++ (' ' :: ([b1, b2, b3, b4] ++ (' ' :: ([e1, e2, e3, e4] ++ s)))) := by
    simp [List.append_assoc]
  rw [matchTripleThen, e0, take4digits_block h1 hd1]
  simp [tripleTail, tripleFin, take4digits, hb, he, hk, isPySpace]

theorem removeSpaces_grouped {N : Str} (hlen : N.length = 12)
    (hdig : ∀ c ∈ N, isDigitCh c) : removeSpaces (grouped444 N) = N := by
  obtain ⟨d1, d2, d3, hN, h1, h2, h3, ht1, ht2, ht3⟩ := length12_split hlen
  have hd1 : ∀ c ∈ d1, isDigitCh c := fun c hc => hdig c (hN ▸ by simp [hc])
  have hd2 : ∀ c ∈ d2, isDigitCh c := fun c hc => hdig c (hN ▸ by simp [hc])
  have hd3 : ∀ c ∈ d3, isDigitCh c := fun c hc => hdig c (hN ▸ by simp [hc])
  have f1 := removeSpaces_digits hd1
  have f2 := removeSpaces_digits hd2
  have f3 := removeSpaces_digits hd3
  rw [removeSpaces] at f1 f2 f3
  have hGr : grouped444 N = d1 ++ ' ' :: (d2 ++ ' ' :: d3) := by
    rw [grouped444, ← ht1, ← ht2, ← ht3]
  rw [hGr, removeSpaces]
  simp +decide [List.filter_append, List.filter_cons]
  simp only [ne_eq, decide_not] at f1 f2 f3
  rw [f1, f2, f3, hN]
  simp [List.append_assoc]

theorem endB_of {s : Str}
    (hs : s = [] ∨ ∃ c t, s = c :: t ∧ isWordCh c = false) : endB s = true := by
  rcases hs with rfl | ⟨c, t, rfl, hw⟩
  · rfl
  · simp [endB, hw]

theorem searchStd_finds {prev : Option Char} {G s : Str}
    (hne : G ≠ [])
    (hprev : ∀ c, prev = some c → isWordCh c = false)
    (hm : matchTripleThen endB (G ++ s) = some (G, s)) :
    searchWithPrev mStd prev (G ++ s) = some (G, s) := by
  cases hG : G with
  | nil => exact absurd hG hne
  | cons g1 Gt =>
    subst hG
    rw [List.cons_append, searchWithPrev, ← List.cons_append]
    have hb : boundaryB prev = true := by
      cases prev with
      | none => rfl
      | some c => simp [boundaryB, hprev c rfl]
    rw [mStd, if_pos hb, hm]
    rfl

/-- The extractor returns the claimed number when the pooled text is that
number (bare or space-grouped), preceded only by non-word characters and
followed by a non-word character or the end of the text. -/
theorem extract_aadhaar_finds {p G s N : Str}
    (hp : ∀ c ∈ p, isWordCh c = false)
    (hlen : N.length = 12) (hdig : ∀ c ∈ N, isDigitCh c)
    (hhead : N.headD ' ' ≠ '0' ∧ N.headD ' ' ≠ '1')
    (hG : G = N ∨ G = grouped444 N)
    (hs : s = [] ∨ ∃ c t, s = c :: t ∧ isWordCh c = false) :
    extract_aadhaar (p ++ G ++ s) = .ok (some N) := by
  have hkend : endB s = true := endB_of hs
  have hGne : G ≠ [] := by
    rcases hG with rfl | rfl
    · intro h
      rw [h] at hlen
      simp at hlen
    · rw [grouped444]
      intro h
      simp at h
  have hmatch : matchTripleThen endB (G ++ s) = some (G, s) := by
    rcases hG with rfl | rfl
    · exact matchTriple_digits hlen hdig hkend
    · exact matchTriple_grouped hlen hdig hkend
  have hrs : removeSpaces G = N := by
    rcases hG with rfl | rfl
    · exact removeSpaces_digits hdig
    · exact removeSpaces_grouped hlen hdig
  obtain ⟨prev', hprev', hskip⟩ :=
    searchStd_skip (G ++ s) p none hp (by intro c h; cases h)
  have hsearch : searchWithPrev mStd none (p ++ (G ++ s)) = some (G, s) := by
    rw [hskip]
    exact searchStd_finds hGne hprev' hmatch
  have hok : aadhaarOk N = true := by
    obtain ⟨c0, t0, hc0⟩ : ∃ c0 t0, N = c0 :: t0 := by
      cases N with
      | nil => simp at hlen
      | cons a t => exact ⟨a, t, rfl⟩
    rw [hc0] at hhead ⊢
    simp only [List.headD_cons] at hhead
    rw [aadhaarOk]
    rw [hc0] at hlen
    simp [hlen, hhead.1, hhead.2]
  rw [show p ++ G ++ s = p ++ (G ++ s) from by simp [List.append_assoc]]
  rw [extract_aadhaar, hsearch]
  simp [hrs, hok]

/-! # Claim theorems -/

/-- **C1**: for every extraction result and claimed identity, the
verifier's `all_match` flag equals the conjunction of the three individual
flags, and a field that is absent (or empty) on either side makes its flag
false — so unresolved fields make `all_match` false. -/
theorem C1_all_match_conj (tsr : Str → Str → Nat) (parseD : Str → Option PyDate)
    (ex : Extracted) (input_name input_dob input_aadhaar : Str) :
    (verify_details tsr parseD ex input_name input_dob input_aadhaar).all_match
      = ((verify_details tsr parseD ex input_name input_dob input_aadhaar).name_match &&
         (verify_details tsr parseD ex input_name input_dob input_aadhaar).dob_match &&
         (verify_details tsr parseD ex input_name input_dob input_aadhaar).aadhaar_match) ∧
    ((ex.name = none ∨ ex.name = some [] ∨ input_name = []) →
      (verify_details tsr parseD ex input_name input_dob input_aadhaar).name_match = false) ∧
    ((ex.dob = none ∨ ex.dob = some [] ∨ input_dob = []) →
      (verify_details tsr parseD ex input_name input_dob input_aadhaar).dob_match = false) ∧
    ((ex.aadhaar = none ∨ ex.aadhaar = some [] ∨ input_aadhaar = []) →
      (verify_details tsr parseD ex input_name input_dob input_aadhaar).aadhaar_match = false) ∧
    (((verify_details tsr parseD ex input_name input_dob input_aadhaar).name_match = false ∨
      (verify_details tsr parseD ex input_name input_dob input_aadhaar).dob_match = false ∨
      (verify_details tsr parseD ex input_name input_dob input_aadhaar).aadhaar_match = false) →
      (verify_details tsr parseD ex input_name input_dob input_aadhaar).all_match = false) := by
  refine ⟨rfl, ?_, ?_, ?_, ?_⟩
  · rintro (h | h | rfl)
    · simp [verify_details, h]
    · simp [verify_details, h]
    · cases hn : ex.name <;> simp [verify_details, hn]
  · rintro (h | h | rfl)
    · simp [verify_details, h]
    · simp [verify_details, h]
    · cases hd : ex.dob <;> simp [verify_details, hd]
  · rintro (h | h | rfl)
    · simp [verify_details, h]
    · simp [verify_details, h]
    · cases ha : ex.aadhaar <;> simp [verify_details, ha]
  · rintro (h | h | h) <;>
      rw [show (verify_details tsr parseD ex input_name input_dob input_aadhaar).all_match
        = ((verify_details tsr parseD ex input_name input_dob input_aadhaar).name_match &&
           (verify_details tsr parseD ex input_name input_dob input_aadhaar).dob_match &&
           (verify_details tsr parseD ex input_name input_dob input_aadhaar).aadhaar_match)
        from rfl, h] <;> simp

/-- Witness for C1 at a concrete input: an absent extracted name. -/
theorem C1_witness :
    (verify_details (fun _ _ => 100) (fun _ => none)
      ⟨none, some (str "05-03-1999"), some (str "234567890123")⟩
      (str "John") (str "05-03-1999") (str "234567890123")).name_match = false :=
  (C1_all_match_conj (fun _ _ => 100) (fun _ => none)
    ⟨none, some (str "05-03-1999"), some (str "234567890123")⟩
    (str "John") (str "05-03-1999") (str "234567890123")).2.1 (Or.inl rfl)

/-- **C5**: `aadhaar_match` is pure string equality after removing spaces:
it is true iff both numbers are present (non-empty) and equal after space
removal, and any digit difference makes it false. -/
theorem C5_aadhaar_match_iff (tsr : Str → Str → Nat) (parseD : Str → Option PyDate)
    (ex : Extracted) (input_name input_dob input_aadhaar : Str) :
    ((verify_details tsr parseD ex input_name input_dob input_aadhaar).aadhaar_match = true ↔
      ∃ s, ex.aadhaar = some s ∧ s ≠ [] ∧ input_aadhaar ≠ [] ∧
        removeSpaces s = removeSpaces input_aadhaar) ∧
    (∀ s, ex.aadhaar = some s → removeSpaces s ≠ removeSpaces input_aadhaar →
      (verify_details tsr parseD ex input_name input_dob input_aadhaar).aadhaar_match = false) := by
  constructor
  · cases ha : ex.aadhaar with
    | none => simp [verify_details, ha]
    | some a =>
      simp only [verify_details, ha]
      constructor
      · intro h
        refine ⟨a, rfl, ?_⟩
        by_cases h1 : a.isEmpty <;> by_cases h2 : input_aadhaar.isEmpty <;>
          simp [h1, h2] at h ⊢ <;> simp_all [List.isEmpty_iff]
      · rintro ⟨s, hs, h1, h2, h3⟩
        cases hs
        simp [List.isEmpty_iff, h1, h2, h3]
  · intro s hs hne
    cases h1 : s.isEmpty
    all_goals cases h2 : input_aadhaar.isEmpty
    all_goals simp [verify_details, hs, h1, h2, hne]

/-- Witness for C5: a one-digit difference yields a false flag. -/
theorem C5_witness :
    (verify_details (fun _ _ => 100) (fun _ => none)
      ⟨none, none, some (str "234567890124")⟩ [] [] (str "234567890123")).aadhaar_match
      = false :=
  (C5_aadhaar_match_iff (fun _ _ => 100) (fun _ => none)
    ⟨none, none, some (str "234567890124")⟩ [] [] (str "234567890123")).2
    (str "234567890124") rfl (by decide)

/-- **C9**: the computed age is current year minus birth year, decremented
by one exactly when the current (month, day) precedes the birth
(month, day); the teen flag holds iff the age is present and in [13, 20);
a birth date exactly 20 years earlier (same month/day) is not teen; an
absent date of birth yields an absent age and a false flag. -/
theorem C9_calculate_age (parseD : Str → Option PyDate) (today d : PyDate) (s : Str) :
    (calculate_age parseD today none = none ∧
      isTeen (calculate_age parseD today none) = false) ∧
    (s ≠ [] → parseD s = some d →
      calculate_age parseD today (some s) =
        some ((today.year : Int) - (d.year : Int) -
          (if pairLt (today.month, today.day) (d.month, d.day) then 1 else 0))) ∧
    (∀ a : Int, isTeen (some a) = (decide (13 ≤ a) && decide (a < 20))) ∧
    (∀ y m dd : Nat, 20 ≤ y → s ≠ [] → parseD s = some ⟨y - 20, m, dd⟩ →
      today = ⟨y, m, dd⟩ → isTeen (calculate_age parseD today (some s)) = false) := by
  refine ⟨⟨rfl, rfl⟩, ?_, fun a => rfl, ?_⟩
  · intro hs hp
    simp only [calculate_age, List.isEmpty_iff, hp, if_neg hs]
    split <;> simp
  · rintro y m dd hy hs hp rfl
    simp only [calculate_age, List.isEmpty_iff, hp, if_neg hs]
    have hfalse : pairLt (m, dd) (m, dd) = false := by simp [pairLt]
    simp only [hfalse, Bool.false_eq_true, if_false]
    have h20 : (y : Int) - ((y - 20 : Nat) : Int) = 20 := by omega
    rw [h20]
    decide

/-- Witness for C9: age 15 is teen; exactly 20 years earlier is not. -/
theorem C9_witness :
    calculate_age (fun _ => some ⟨2011, 10, 12⟩) ⟨2026, 10, 12⟩ (some (str "12-10-2011"))
      = some 15 ∧
    isTeen (some 15) = true ∧
    isTeen (calculate_age (fun _ => some ⟨2006, 10, 12⟩) ⟨2026, 10, 12⟩
      (some (str "12-10-2006"))) = false := by
  refine ⟨?_, by decide, ?_⟩
  · have h := (C9_calculate_age (fun _ => some ⟨2011, 10, 12⟩) ⟨2026, 10, 12⟩
      ⟨2011, 10, 12⟩ (str "12-10-2011")).2.1 (by decide) rfl
    rw [h]; decide
  · exact (C9_calculate_age (fun _ => some ⟨2006, 10, 12⟩) ⟨2026, 10, 12⟩
      ⟨2006, 10, 12⟩ (str "12-10-2006")).2.2.2 2026 10 12 (by omega) (by decide) rfl rfl

/-- **C3** (code bug): on a text containing a 14-digit run, the
version-indicator fallback pattern of line 164 matches but has no capture
group, so `match.group(1)` raises `IndexError` instead of the extractor
returning a value or absent. -/
theorem C3_version_pattern_raises :
    extract_aadhaar (str "0234 5678 9012 (1)") = .error .noSuchGroup ∧
    extract_aadhaar (str "02345678901234") = .error .noSuchGroup := by decide

/-- **C6** (counterexample): instantiating the four transforms with
distinct functions on `Nat`, the preprocessor's output triple does not
contain the denoised variant — it produces three, not four, variants. -/
theorem C6_counterexample :
    preprocess_image (fun g : Nat => g) (fun g => g + 1) (fun g => g + 2)
        (fun g => g + 3) (fun g => g + 4) 0 = (1, 2, 4) ∧
    (fun g => g + 3) ((fun g : Nat => g) 0) = 3 ∧
    ((3 : Nat) ≠ 1 ∧ (3 : Nat) ≠ 2 ∧ (3 : Nat) ≠ 4) := by decide

/-- **C6** (amended): the preprocessor computes four transforms but returns
exactly three variants — Otsu threshold, adaptive threshold and bilateral
filter of the grayscale image, the denoised one being discarded — and the
orchestrator obtains one pooled text per returned variant (three). -/
theorem C6_three_variants (Img : Type) (E : Ext Img) (img : Img) :
    preprocess_image E.cvtColor E.threshOtsu E.adaptiveThreshold
        E.fastNlMeansDenoising E.bilateralFilter img
      = (E.threshOtsu (E.cvtColor img), E.adaptiveThreshold (E.cvtColor img),
         E.bilateralFilter (E.cvtColor img)) ∧
    pipelineTexts E img =
      [extract_text E (E.threshOtsu (E.cvtColor img)),
       extract_text E (E.adaptiveThreshold (E.cvtColor img)),
       extract_text E (E.bilateralFilter (E.cvtColor img))] ∧
    (pipelineTexts E img).length = 3 :=
  ⟨rfl, rfl, rfl⟩

/-- **C8** (counterexample): for an unreadable image path the result dict
is `{'error': 'Could not read image file'}` — it carries an error
description but NO success flag. -/
theorem C8_counterexample :
    (verify_aadhaar extNoImage (str "img.png") (str "John") (str "05-03-1999")
        (str "234567890123")).success = none ∧
    (verify_aadhaar extNoImage (str "img.png") (str "John") (str "05-03-1999")
        (str "234567890123")).error = some (str "Could not read image file") := by decide

/-- **C8** (amended): the two failure paths of the top-level verification.
An unreadable image yields the fixed error dict (error description, no
success key, no match data); an exception during the pipeline yields
`success = False` with an error message and no match data; in both cases
no match flags, age, extracted fields or debug text are present, and the
operation is a total function (never a crash). -/
theorem C8_failure_shape (Img : Type) (E : Ext Img) (path n d a : Str) :
    (E.imread path = none → verify_aadhaar E path n d a = unreadableResult) ∧
    (∀ img e, E.imread path = some img →
      fillLoop E n (pipelineTexts E img) ⟨none, none, none⟩ = .error e →
      verify_aadhaar E path n d a = failureResult e) ∧
    (unreadableResult.success = none ∧ unreadableResult.error ≠ none ∧
      unreadableResult.all_match = none ∧ unreadableResult.name_match = none ∧
      unreadableResult.dob_match = none ∧ unreadableResult.aadhaar_match = none ∧
      unreadableResult.extracted = none ∧ unreadableResult.age = none ∧
      unreadableResult.is_teen = none ∧ unreadableResult.debug_text = none) ∧
    (∀ e : PyErr, (failureResult e).success = some false ∧ (failureResult e).error ≠ none ∧
      (failureResult e).all_match = none ∧ (failureResult e).name_match = none ∧
      (failureResult e).dob_match = none ∧ (failureResult e).aadhaar_match = none ∧
      (failureResult e).extracted = none ∧ (failureResult e).age = none ∧
      (failureResult e).is_teen = none ∧ (failureResult e).debug_text = none) := by
  refine ⟨?_, ?_, ?_, ?_⟩
  · intro h
    simp [verify_aadhaar, h]
  · intro img e h1 h2
    simp [verify_aadhaar, h1, h2]
  · simp [unreadableResult]
  · intro e
    simp [failureResult]

/-- **C7** (counterexample): a candidate whose first-token score is exactly
60 and that does not contain the claimed first token IS rejected (the code
requires a score strictly greater than 60), contradicting the claim's
"falls below 60" / "exactly 60 is not rejected". -/
theorem C7_counterexample :
    validate_name_candidate (fun _ _ => 60) (str "John") (str "Mike") = .ok false ∧
    (str "John").isEmpty = false ∧ (str "John").length ≤ 40 ∧
    (str "John").all nameClassCh = true ∧
    containsSub (lowerS (str "John")) (lowerS (str "Mike")) = false ∧
    ¬(60 : Nat) < 60 := by decide

/-- **C7** (amended): for a stripped candidate and a claimed name with at
least one token, validation returns (no exception) the conjunction: the
candidate is non-empty, at most 40 characters, made of letters, whitespace,
hyphens and periods only, and its first token's score against the claimed
first name EXCEEDS 60 (so exactly 60 is rejected) or the lowered claimed
first token occurs in the lowered candidate. -/
theorem C7_validate_characterization (fr : Str → Str → Nat)
    (candidate input_name i0 : Str) (irest : List Str)
    (hi : pySplit input_name = i0 :: irest)
    (hc : pyStrip candidate = candidate) :
    validate_name_candidate fr candidate input_name =
      .ok (!(candidate.isEmpty || decide (candidate.length > 40)) &&
           candidate.all nameClassCh &&
           (decide (60 < fr (lowerS i0) (lowerS ((pySplit candidate).headD []))) ||
            containsSub (lowerS candidate) (lowerS i0))) := by
  rw [validate_name_candidate]
  by_cases h1 : (candidate.isEmpty || decide (candidate.length > 40)) = true
  · simp [h1]
  · rw [if_neg h1]
    simp only [h1, Bool.not_false, Bool.true_and]
    by_cases h2 : candidate.all nameClassCh = true
    · simp only [h2, Bool.not_true, Bool.false_eq_true, if_false, Bool.true_and]
      rw [hi]
      have hne : candidate ≠ [] := by
        intro hnil
        rw [hnil] at h1
        simp at h1
      have hsplit : pySplit candidate ≠ [] := by
        cases hcand : candidate with
        | nil => exact absurd hcand hne
        | cons c t =>
          have : isPySpace c = false := pyStrip_head_not_space (hcand ▸ hc)
          exact hcand ▸ pySplit_cons_ne_nil this
      cases hs : pySplit candidate with
      | nil => exact absurd hs hsplit
      | cons c0 crest => simp
    · simp only [Bool.not_eq_true] at h2
      simp [h2]

/-- Witness for C7 at a concrete input: score 61 is accepted. -/
theorem C7_witness :
    validate_name_candidate (fun _ _ => 61) (str "John") (str "Mike") =
      .ok (!((str "John").isEmpty || decide ((str "John").length > 40)) &&
           (str "John").all nameClassCh &&
           (decide (60 < (fun _ _ => (61 : Nat)) (lowerS (str "Mike"))
              (lowerS ((pySplit (str "John")).headD []))) ||
            containsSub (lowerS (str "John")) (lowerS (str "Mike")))) :=
  C7_validate_characterization (fun _ _ => 61) (str "John") (str "Mike")
    (str "Mike") [] (by decide) (by decide)

/-- **C4** (counterexample): the pooled text contains the claimed number
`234567890123` (length 12, first digit 2), yet `aadhaar_match` is false,
because the extractor commits to the text's FIRST word-bounded 12-digit
run (`987654321098`). -/
theorem C4_counterexample :
    idMatchPipe (fun _ _ => 0) (fun _ => none)
      (str "987654321098 234567890123") (str "234567890123") = .ok false ∧
    containsSub (str "987654321098 234567890123") (str "234567890123") = true ∧
    (str "234567890123").length = 12 ∧
    (∀ c ∈ str "234567890123", isDigitCh c) ∧
    (str "234567890123").headD ' ' ≠ '0' ∧
    (str "234567890123").headD ' ' ≠ '1' := by decide

/-- **C4** (amended): for every claimed ID number N of 12 digits with
first digit not in {0, 1}: if the pooled text consists of N — bare or in
4-4-4 space grouping — preceded only by non-word characters and followed
by a non-word character or the end of the text (so that the leftmost
word-bounded 12-digit run of the text is N itself), then the pipeline's
idMatch flag is true. -/
theorem C4_idMatch_of_leading (tsr : Str → Str → Nat) (parseD : Str → Option PyDate)
    (p G s N : Str)
    (hp : ∀ c ∈ p, isWordCh c = false)
    (hlen : N.length = 12) (hdig : ∀ c ∈ N, isDigitCh c)
    (hhead : N.headD ' ' ≠ '0' ∧ N.headD ' ' ≠ '1')
    (hG : G = N ∨ G = grouped444 N)
    (hs : s = [] ∨ ∃ c t, s = c :: t ∧ isWordCh c = false) :
    idMatchPipe tsr parseD (p ++ G ++ s) N = .ok true := by
  rw [idMatchPipe, extract_aadhaar_finds hp hlen hdig hhead hG hs]
  have hne : N ≠ [] := by
    intro h
    rw [h] at hlen
    simp at hlen
  simp [verify_details, List.isEmpty_iff, hne]

/-- Witness for C4 at a concrete input: text `": 2345 6789 0123"`. -/
theorem C4_witness :
    idMatchPipe (fun _ _ => 0) (fun _ => none)
      (str ": " ++ grouped444 (str "234567890123") ++ []) (str "234567890123")
      = .ok true :=
  C4_idMatch_of_leading (fun _ _ => 0) (fun _ => none)
    (str ": ") (grouped444 (str "234567890123")) [] (str "234567890123")
    (by decide) (by decide) (by decide) (by decide) (Or.inr rfl) (Or.inl rfl)

/-- Witness for C8 at concrete inputs: both failure paths realized. -/
theorem C8_witness :
    verify_aadhaar extNoImage (str "a.png") [] [] [] = unreadableResult ∧
    verify_aadhaar extRaising (str "a.png") (str "John") [] [] =
      failureResult .noSuchGroup := by
  constructor
  · exact (C8_failure_shape Unit extNoImage (str "a.png") [] [] []).1 rfl
  · exact (C8_failure_shape Unit extRaising (str "a.png") (str "John") [] []).2.1
      () .noSuchGroup rfl (by decide)

end Aadhaar
